import Mathlib

/-!
Verification of the decision core of a Solana agent SDK: the intent parser
(`src/modules/nlp.ts`), the safety evaluator (`src/modules/safety.ts`) and the
simulation previewer (transaction simulation module).  JavaScript strings are
modelled as lists of code points, JavaScript numbers as rationals, and the
previewer's remote collaborator as an `Except` outcome.  Case mapping and
whitespace are modelled on the ASCII range (all string constants in the source
are ASCII); numeric string interpolation inside human-readable messages
(`toFixed`) is elided, since no message with interpolation is compared anywhere.
-/

set_option allowUnsafeReducibility true

attribute [local semireducible] Rat.mul Rat.inv Rat.add Rat.sub

namespace SolanaSDK

/-- A JavaScript string, as the list of its code points. -/
abbrev JSString := List Nat

/-- Embed a Lean string literal as a list of code points. -/
def strToL (s : String) : JSString := s.data.map Char.toNat

/-- JS `String.prototype.toLowerCase`, ASCII range. -/
def asciiLowerN (n : Nat) : Nat := if 65 ≤ n ∧ n ≤ 90 then n + 32 else n

/-- JS `String.prototype.toUpperCase`, ASCII range. -/
def asciiUpperN (n : Nat) : Nat := if 97 ≤ n ∧ n ≤ 122 then n - 32 else n

def toLowerL (s : JSString) : JSString := s.map asciiLowerN

/-- Class `\s` of the regexes and of `trim`, ASCII whitespace. -/
def isWS (n : Nat) : Bool := n = 32 || n = 9 || n = 10 || n = 13 || n = 11 || n = 12

/-- Class `\d`. -/
def isDigit (n : Nat) : Bool := 48 ≤ n && n ≤ 57

/-- Class `[a-zA-Z]`. -/
def isAlpha (n : Nat) : Bool := (65 ≤ n && n ≤ 90) || (97 ≤ n && n ≤ 122)

/-- Class `\w`. -/
def isWordChar (n : Nat) : Bool := isAlpha n || isDigit n || n = 95

/-- The base58 character class `[1-9A-HJ-NP-Za-km-z]` of the recipient regex. -/
def isBase58 (n : Nat) : Bool :=
  (49 ≤ n && n ≤ 57) || (65 ≤ n && n ≤ 72) || (74 ≤ n && n ≤ 78) ||
  (80 ≤ n && n ≤ 90) || (97 ≤ n && n ≤ 107) || (109 ≤ n && n ≤ 122)

/-- JS `String.prototype.trim`. -/
def trimL (s : JSString) : JSString :=
  ((s.dropWhile isWS).reverse.dropWhile isWS).reverse

/-- Does `pat` occur at the start of `t`? -/
def leadsL : JSString → JSString → Bool
  | [], _ => true
  | _ :: _, [] => false
  | p :: ps, t :: ts => p == t && leadsL ps ts

/-- JS `text.includes(pat)`: does `pat` occur anywhere in the text? -/
def hasSub (pat : JSString) : JSString → Bool
  | [] => leadsL pat []
  | c :: r => leadsL pat (c :: r) || hasSub pat r

/-- JS `split(/\s+/)` applied to an already trimmed string. -/
def splitWSAux : JSString → JSString → List JSString
  | [], acc => [acc.reverse]
  | c :: r, acc =>
    if isWS c then
      match acc with
      | [] => splitWSAux r []
      | _ => acc.reverse :: splitWSAux r []
    else splitWSAux r (c :: acc)

def splitWS (s : JSString) : List JSString := splitWSAux s []

/-! ## Safety evaluator (`src/modules/safety.ts`) -/

inductive Level
  | safe
  | warning
  | danger
  | blocked
deriving DecidableEq, BEq

structure SafetyCheck where
  passed : Bool
  level : Level
  message : JSString
  details : Option JSString := none
deriving DecidableEq

structure SafetyReport where
  overallSafe : Bool
  checks : List SafetyCheck
  recommended : JSString
deriving DecidableEq

structure SwapSafetyParams where
  inputAmount : ℚ
  inputToken : JSString
  outputToken : JSString
  walletBalance : ℚ
  slippageBps : ℚ
  expectedOutput : Option ℚ := none
deriving DecidableEq

/-- Check 1 of `checkSwapSafety`: balance percentage.  The interpolated
percentage in the message text is elided. -/
def balancePctCheck (p : SwapSafetyParams) : SafetyCheck :=
  let pct := p.inputAmount / p.walletBalance * 100
  if pct > 90 then
    { passed := false, level := .danger,
      message := strToL "Using % of wallet balance",
      details := some (strToL "Consider keeping reserves for fees and emergencies") }
  else if pct > 50 then
    { passed := true, level := .warning,
      message := strToL "Using % of wallet balance",
      details := some (strToL "Large position relative to portfolio") }
  else
    { passed := true, level := .safe,
      message := strToL "Using % of wallet balance" }

/-- Check 2 of `checkSwapSafety`: slippage tolerance. -/
def slippageCheck (p : SwapSafetyParams) : SafetyCheck :=
  if p.slippageBps > 500 then
    { passed := false, level := .danger,
      message := strToL "Slippage tolerance is %",
      details := some (strToL "High slippage may result in significant value loss") }
  else if p.slippageBps > 100 then
    { passed := true, level := .warning,
      message := strToL "Slippage tolerance is %",
      details := some (strToL "Consider lower slippage for better execution") }
  else
    { passed := true, level := .safe,
      message := strToL "Slippage tolerance is %" }

/-- The blocked check pushed by check 3 of `checkSwapSafety`. -/
def feeReserveCheck : SafetyCheck :=
  { passed := false, level := .blocked,
    message := strToL "Insufficient SOL remaining for transaction fees",
    details := some (strToL "Need at least 0.001 SOL for fees after swap") }

/-- Check 3 of `checkSwapSafety`: fee reserve, pushed only on failure. -/
def feeReserveChecks (p : SwapSafetyParams) : List SafetyCheck :=
  if p.inputToken = strToL "SOL" ∧ p.walletBalance - p.inputAmount < 1/1000 then
    [feeReserveCheck]
  else []

/-- Lines 97-119 of `checkSwapSafety`: recommendation and `overallSafe` from
the collected checks. -/
def mkSwapReport (checks : List SafetyCheck) : SafetyReport :=
  let hasDanger := checks.any fun c => c.level == Level.danger
  let hasBlocked := checks.any fun c => c.level == Level.blocked
  let hasWarning := checks.any fun c => c.level == Level.warning
  if hasBlocked then
    { overallSafe := false, checks := checks,
      recommended := strToL "BLOCKED: Transaction cannot proceed due to critical issues" }
  else if hasDanger then
    { overallSafe := false, checks := checks,
      recommended := strToL "NOT RECOMMENDED: High-risk transaction, proceed with extreme caution" }
  else if hasWarning then
    { overallSafe := true, checks := checks,
      recommended := strToL "CAUTION: Transaction has some risks, review before proceeding" }
  else
    { overallSafe := true, checks := checks,
      recommended := strToL "SAFE: Transaction appears safe to execute" }

def checkSwapSafety (p : SwapSafetyParams) : SafetyReport :=
  mkSwapReport ([balancePctCheck p, slippageCheck p] ++ feeReserveChecks p)

/-- The concrete input of the spec's swap-safety example: 95 of 100 SOL with
500 bps slippage, swapping to USDC. -/
def exampleSwapParams : SwapSafetyParams :=
  { inputAmount := 95, inputToken := strToL "SOL", outputToken := strToL "USDC",
    walletBalance := 100, slippageBps := 500 }

/-- The single balance check of `checkWalletHealth` (message numbers elided). -/
def walletBalanceCheck (solBalance : ℚ) : SafetyCheck :=
  if solBalance < 1/1000 then
    { passed := false, level := .blocked,
      message := strToL "SOL balance too low for transactions",
      details := some (strToL "Need at least 0.001 SOL for transaction fees") }
  else if solBalance < 1/100 then
    { passed := true, level := .warning,
      message := strToL "Low SOL balance",
      details := some (strToL "Consider adding more SOL for multiple transactions") }
  else
    { passed := true, level := .safe, message := strToL "SOL balance" }

/-- Function `checkWalletHealth`, with the remote `getBalance` call abstracted to an
`Except` outcome: `.ok lamports` when the RPC returns, `.error msg` when any
awaited call throws. -/
def checkWalletHealth (remote : Except JSString Nat) : SafetyReport :=
  match remote with
  | .ok lamports =>
    let solBalance : ℚ := (lamports : ℚ) / 1000000000
    let checks := [walletBalanceCheck solBalance]
    let overallSafe := !(checks.any fun c => c.level == Level.blocked || c.level == Level.danger)
    { overallSafe := overallSafe, checks := checks,
      recommended :=
        if overallSafe then strToL "Wallet is healthy and ready for transactions"
        else strToL "Wallet has issues that need to be resolved" }
  | .error msg =>
    { overallSafe := false,
      checks := [{ passed := false, level := .blocked,
                   message := strToL "Failed to check wallet health",
                   details := some msg }],
      recommended := strToL "Unable to verify wallet status" }

/-- Function `preflightCheck`: wallet health checks, then swap checks when the
operation is a swap. -/
def preflightCheck (remote : Except JSString Nat) (operation : JSString)
    (params : SwapSafetyParams) : SafetyReport :=
  let walletHealth := checkWalletHealth remote
  let checks := walletHealth.checks ++
    (if operation = strToL "swap" then (checkSwapSafety params).checks else [])
  let hasBlocked := checks.any fun c => c.level == Level.blocked
  let hasDanger := checks.any fun c => c.level == Level.danger
  { overallSafe := !hasBlocked && !hasDanger, checks := checks,
    recommended :=
      if hasBlocked then strToL "BLOCKED"
      else if hasDanger then strToL "NOT RECOMMENDED"
      else strToL "SAFE TO PROCEED" }

/-- A check whose level makes the report unsafe. -/
def levelCritical (c : SafetyCheck) : Bool :=
  c.level == Level.danger || c.level == Level.blocked

/-- The spec's report invariant: `overallSafe` is false iff some check has
level danger or blocked. -/
def safeInvariant (r : SafetyReport) : Prop :=
  r.overallSafe = !(r.checks.any levelCritical)

/-! ## Simulation previewer (transaction simulation module) -/

/-- A `TransactionError` of the collaborator: a string or an object (an object
is carried together with its JSON rendering). -/
inductive ErrVal
  | strE (s : JSString)
  | objE (json : JSString)
deriving DecidableEq

/-- JavaScript truthiness of a `TransactionError` value: objects are truthy,
strings are truthy unless empty. -/
def errTruthy : ErrVal → Bool
  | .strE s => !s.isEmpty
  | .objE _ => true

/-- JS `JSON.stringify` of a `TransactionError` (string escaping elided; no
claim inspects the serialized content). -/
def jsonStringifyErr : ErrVal → JSString
  | .strE s => 34 :: (s ++ [34])
  | .objE j => j

/-- The raw value the collaborator's simulate endpoint resolves with. -/
structure RawSimValue where
  err : Option ErrVal
  logs : Option (List JSString) := none
  unitsConsumed : Option Nat := none
deriving DecidableEq

/-- A type-correct raw collaborator value whose transaction error is the empty
string (`TransactionError` admits arbitrary strings): non-null yet falsy. -/
def emptyStrErrRaw : RawSimValue :=
  { err := some (ErrVal.strE []), logs := some [], unitsConsumed := some 0 }

structure BalanceChange where
  account : JSString
  before : ℚ
  after : ℚ
  change : ℚ
  token : Option JSString := none
deriving DecidableEq

structure SimulationResult where
  success : Bool
  logs : List JSString
  unitsConsumed : Nat
  fee : ℚ
  balanceChanges : List BalanceChange
  error : Option JSString := none
  warnings : List JSString
deriving DecidableEq

def highComputeMsg : JSString := strToL "High compute usage - transaction may be complex"
def transferMsg : JSString := strToL "Transaction includes token/SOL transfers"
def insufficientMsg : JSString := strToL "Possible insufficient funds"
def simFailMsg : JSString := strToL "Simulation failed - transaction may be invalid"

/-- The per-log warning loop of `simulateTransaction`. -/
def logWarnings : List JSString → List JSString
  | [] => []
  | log :: rest =>
    (if hasSub (strToL "Transfer") log then [transferMsg] else []) ++
    (if hasSub (strToL "insufficient") log then [insufficientMsg] else []) ++
    logWarnings rest

/-- Function `simulateTransaction`, with the chain of awaited RPC calls abstracted to an
`Except` outcome: `.ok raw` when simulation resolves with `raw`, `.error msg`
when any awaited call throws an exception with message `msg`. -/
def simulateTransaction (collab : Except JSString RawSimValue) : SimulationResult :=
  match collab with
  | .error msg =>
    { success := false, logs := [], unitsConsumed := 0, fee := 0,
      balanceChanges := [], error := some msg, warnings := [simFailMsg] }
  | .ok result =>
    let success := result.err.isNone
    let logs := result.logs.getD []
    let unitsConsumed := result.unitsConsumed.getD 0
    let fee : ℚ := 5/1000000
    let warnings :=
      (if unitsConsumed > 200000 then [highComputeMsg] else []) ++ logWarnings logs
    { success := success, logs := logs, unitsConsumed := unitsConsumed,
      fee := fee, balanceChanges := [],
      error := match result.err with
        | some e => if errTruthy e then some (jsonStringifyErr e) else none
        | none => none,
      warnings := warnings }

/-- The full `simulateTransaction` call as its caller observes it.  The
synchronous `new Connection(rpcUrl, 'confirmed')` on the line before the try
can throw (the web3.js Connection constructor rejects invalid RPC URLs during
construction); inside an async function that throw rejects the returned
promise, so the exception reaches the caller.  Once construction succeeds,
everything awaited runs inside the try/catch and the call always resolves
with a `SimulationResult`. -/
def simulateTransactionCall (connection : Except JSString Unit)
    (collab : Except JSString RawSimValue) : Except JSString SimulationResult :=
  match connection with
  | .error e => .error e
  | .ok _ => .ok (simulateTransaction collab)

/-! ## Intent parser (`src/modules/nlp.ts`) -/

inductive Action
  | swap
  | transfer
  | stake
  | balance
  | price
  | unknown
deriving DecidableEq, BEq

/-- The recognized parameter fields of a `ParsedIntent`.  `none` models both an
absent key and a `null` value (the two are indistinguishable to every consumer
in the source, which only tests truthiness or passes the value through). -/
structure Params where
  amount : Option ℚ := none
  inputToken : Option JSString := none
  outputToken : Option JSString := none
  recipient : Option JSString := none
  recipientName : Option JSString := none
  token : Option JSString := none
deriving DecidableEq

structure ParsedIntent where
  action : Action
  confidence : ℚ
  params : Params
  originalText : JSString
  clarificationNeeded : Option JSString := none
deriving DecidableEq

def TOKEN_ALIASES : List (JSString × JSString) :=
  [(strToL "sol", strToL "SOL"), (strToL "solana", strToL "SOL"),
   (strToL "usdc", strToL "USDC"), (strToL "usdt", strToL "USDT"),
   (strToL "tether", strToL "USDT"), (strToL "bonk", strToL "BONK"),
   (strToL "jup", strToL "JUP"), (strToL "jupiter", strToL "JUP"),
   (strToL "ray", strToL "RAY"), (strToL "raydium", strToL "RAY"),
   (strToL "wif", strToL "WIF"), (strToL "dogwifhat", strToL "WIF"),
   (strToL "jito", strToL "JTO"), (strToL "pyth", strToL "PYTH"),
   (strToL "orca", strToL "ORCA"), (strToL "msol", strToL "mSOL"),
   (strToL "marinade", strToL "mSOL"), (strToL "bsol", strToL "bSOL"),
   (strToL "eth", strToL "ETH"), (strToL "ethereum", strToL "ETH"),
   (strToL "weth", strToL "WETH"), (strToL "btc", strToL "BTC"),
   (strToL "bitcoin", strToL "BTC"), (strToL "wbtc", strToL "WBTC")]

/-- Runtime value of a non-null `TOKEN_ALIASES[lower]` read, and hence of a
non-null `normalizeToken` result: an ordinary string, or the
`Object.prototype.constructor` function that a plain object literal inherits.
The declared TypeScript types promise `string`, but the inherited read leaks
the function. -/
inductive TokenVal
  | sym (s : JSString)
  | objCtor
deriving DecidableEq

/-- Property read `TOKEN_ALIASES[key]` on the object literal: own entries
first, then the prototype chain.  Keys reaching this read are cleaned to
`[a-z0-9]*`, and `constructor` is the only `Object.prototype` property name of
that shape, so it is the one possible inherited hit; it yields the (truthy)
`Object` constructor function. -/
def aliasGet : List (JSString × JSString) → JSString → Option TokenVal
  | [], key => if key = strToL "constructor" then some TokenVal.objCtor else none
  | (k, v) :: rest, key =>
    if key = k then some (TokenVal.sym v) else aliasGet rest key

/-- Cleaning step `input.toLowerCase().replace(/[^a-z0-9]/g, '')`. -/
def cleanTok (s : JSString) : JSString :=
  (s.map asciiLowerN).filter fun n => (97 ≤ n && n ≤ 122) || (48 ≤ n && n ≤ 57)

/-- Function `normalizeToken`, faithful to the runtime: alias-object read
first (own entries, then the inherited `constructor` leak), else speculative
upper-cased symbol of cleaned length 2-10, else null. -/
def normalizeToken (input : JSString) : Option TokenVal :=
  match aliasGet TOKEN_ALIASES (cleanTok input) with
  | some v => some v
  | none =>
    if 2 ≤ (cleanTok input).length ∧ (cleanTok input).length ≤ 10 then
      some (TokenVal.sym ((cleanTok input).map asciiUpperN))
    else none

/-- String-typed view of `normalizeToken` — the source's declared
`string | null` — which the parser model stores into params fields.  At the
single leaking input shape (cleaned form `constructor`) the runtime value is
the truthy constructor function rather than a string (see the C9 theorems);
the parser model treats that read as a miss, a divergence confined to stored
params values on which no parser claim depends. -/
def normalizeTokenStr (input : JSString) : Option JSString :=
  match normalizeToken input with
  | some (TokenVal.sym s) => some s
  | some TokenVal.objCtor => none
  | none => none

/-- Second application `normalize(normalize(x))` on a non-null first result,
as the runtime executes it: a string symbol is re-normalized, while the leaked
constructor function has no `toLowerCase` method, so the call throws a
TypeError. -/
def normalizeTokenAgain : TokenVal → Except JSString (Option TokenVal)
  | TokenVal.sym s => Except.ok (normalizeToken s)
  | TokenVal.objCtor => Except.error (strToL "input.toLowerCase is not a function")

def SWAP_KEYWORDS : List JSString :=
  [strToL "swap", strToL "exchange", strToL "trade", strToL "convert",
   strToL "buy", strToL "sell"]
def TRANSFER_KEYWORDS : List JSString :=
  [strToL "send", strToL "transfer", strToL "pay", strToL "give"]
def STAKE_KEYWORDS : List JSString :=
  [strToL "stake", strToL "deposit", strToL "lend", strToL "supply",
   strToL "provide"]
def BALANCE_KEYWORDS : List JSString :=
  [strToL "balance", strToL "how much", strToL "check", strToL "show",
   strToL "wallet"]
def PRICE_KEYWORDS : List JSString :=
  [strToL "price", strToL "worth", strToL "value", strToL "cost",
   strToL "quote"]

/-- Action classification of `parseIntent`: first keyword family with a
substring hit, with its base confidence. -/
def detectAction (lower : JSString) : Action × ℚ :=
  if SWAP_KEYWORDS.any (fun k => hasSub k lower) then (.swap, 8/10)
  else if TRANSFER_KEYWORDS.any (fun k => hasSub k lower) then (.transfer, 8/10)
  else if STAKE_KEYWORDS.any (fun k => hasSub k lower) then (.stake, 7/10)
  else if BALANCE_KEYWORDS.any (fun k => hasSub k lower) then (.balance, 9/10)
  else if PRICE_KEYWORDS.any (fun k => hasSub k lower) then (.price, 9/10)
  else (.unknown, 0)

/-- Digit run to a natural number. -/
def digitsToNat (s : JSString) : Nat := s.foldl (fun a d => a * 10 + (d - 48)) 0

/-- JS `parseFloat` of a string matched by `\d+(?:\.\d+)?` (exact, no float
rounding). -/
def ratOfNum (s : JSString) : ℚ :=
  let ip := s.takeWhile isDigit
  let rest := s.dropWhile isDigit
  match rest with
  | 46 :: fr => (digitsToNat ip : ℚ) + (digitsToNat fr : ℚ) / ((10 : ℚ) ^ fr.length)
  | _ => (digitsToNat ip : ℚ)

/-- First match of `/(\d+(?:\.\d+)?)\s*([a-zA-Z]+)?/`: the numeric string and
the optional trailing word group. -/
def matchAmountAt (l : JSString) : JSString × Option JSString :=
  let d1 := l.takeWhile isDigit
  let r1 := l.dropWhile isDigit
  let (frac, r2) :=
    match r1 with
    | 46 :: rr =>
      if (rr.takeWhile isDigit).isEmpty then (([] : JSString), r1)
      else (46 :: rr.takeWhile isDigit, rr.dropWhile isDigit)
    | _ => ([], r1)
  let r3 := r2.dropWhile isWS
  let letters := r3.takeWhile isAlpha
  (d1 ++ frac, if letters.isEmpty then none else some letters)

def findAmount : JSString → Option (JSString × Option JSString)
  | [] => none
  | c :: r => if isDigit c then some (matchAmountAt (c :: r)) else findAmount r

/-- The alternatives of `(?:for|to|into|→|->)`; their first characters are
pairwise distinct, so alternation order cannot matter. -/
def swapAlts : List JSString :=
  [strToL "for", strToL "to", strToL "into", strToL "→", strToL "->"]

/-- Try `/(?:for|to|into|→|->)\s+([a-zA-Z]+)/` anchored at this position. -/
def matchSwapAt (l : JSString) : Option JSString :=
  swapAlts.findSome? fun alt =>
    if leadsL alt l then
      let after := l.drop alt.length
      if (after.takeWhile isWS).isEmpty then none
      else
        let letters := (after.dropWhile isWS).takeWhile isAlpha
        if letters.isEmpty then none else some letters
    else none

def findSwapMatch : JSString → Option JSString
  | [] => none
  | c :: r =>
    match matchSwapAt (c :: r) with
    | some g => some g
    | none => findSwapMatch r

/-- Numeric literal `\d+(?:\.\d+)?` anchored at this position: the matched
string and the remaining input, or `none` when the position has no digit. -/
def matchNumAt (l : JSString) : Option (JSString × JSString) :=
  if (l.takeWhile isDigit).isEmpty then none
  else
    let d1 := l.takeWhile isDigit
    let r1 := l.dropWhile isDigit
    match r1 with
    | 46 :: rr =>
      if (rr.takeWhile isDigit).isEmpty then some (d1, r1)
      else some (d1 ++ 46 :: rr.takeWhile isDigit, rr.dropWhile isDigit)
    | _ => some (d1, r1)

/-- Try `/buy\s+([a-zA-Z]+)\s+(?:with|using)\s+(\d+(?:\.\d+)?)\s*([a-zA-Z]+)?/`
anchored at this position; groups 1 (output token), 2 (amount string) and the
optional group 3 (input token). -/
def matchBuyAt (l : JSString) : Option (JSString × JSString × Option JSString) :=
  if leadsL (strToL "buy") l then
    let a1 := l.drop 3
    if (a1.takeWhile isWS).isEmpty then none
    else
      let a2 := a1.dropWhile isWS
      let g1 := a2.takeWhile isAlpha
      if g1.isEmpty then none
      else
        let a3 := a2.dropWhile isAlpha
        if (a3.takeWhile isWS).isEmpty then none
        else
          let a4 := a3.dropWhile isWS
          let afterKw :=
            if leadsL (strToL "with") a4 then some (a4.drop 4)
            else if leadsL (strToL "using") a4 then some (a4.drop 5)
            else none
          match afterKw with
          | none => none
          | some a5 =>
            if (a5.takeWhile isWS).isEmpty then none
            else
              let a6 := a5.dropWhile isWS
              match matchNumAt a6 with
              | none => none
              | some (num, rest) =>
                let letters := (rest.dropWhile isWS).takeWhile isAlpha
                some (g1, num, if letters.isEmpty then none else some letters)
  else none

def findBuyMatch : JSString → Option (JSString × JSString × Option JSString)
  | [] => none
  | c :: r =>
    match matchBuyAt (c :: r) with
    | some g => some g
    | none => findBuyMatch r

/-- Try `/sell\s+(\d+(?:\.\d+)?)\s*([a-zA-Z]+)\s+(?:for|into)\s+([a-zA-Z]+)/`
anchored at this position; groups: amount string, input token, output token. -/
def matchSellAt (l : JSString) : Option (JSString × JSString × JSString) :=
  if leadsL (strToL "sell") l then
    let a1 := l.drop 4
    if (a1.takeWhile isWS).isEmpty then none
    else
      let a2 := a1.dropWhile isWS
      match matchNumAt a2 with
      | none => none
      | some (num, rest) =>
        let a3 := rest.dropWhile isWS
        let g2 := a3.takeWhile isAlpha
        if g2.isEmpty then none
        else
          let a4 := a3.dropWhile isAlpha
          if (a4.takeWhile isWS).isEmpty then none
          else
            let a5 := a4.dropWhile isWS
            let afterKw :=
              if leadsL (strToL "for") a5 then some (a5.drop 3)
              else if leadsL (strToL "into") a5 then some (a5.drop 4)
              else none
            match afterKw with
            | none => none
            | some a6 =>
              if (a6.takeWhile isWS).isEmpty then none
              else
                let g3 := (a6.dropWhile isWS).takeWhile isAlpha
                if g3.isEmpty then none else some (num, g2, g3)
  else none

def findSellMatch : JSString → Option (JSString × JSString × JSString)
  | [] => none
  | c :: r =>
    match matchSellAt (c :: r) with
    | some g => some g
    | none => findSellMatch r

/-- First match of `/([1-9A-HJ-NP-Za-km-z]{32,44})/`: leftmost position with a
base58 run of at least 32 characters; the greedy group takes at most 44. -/
def findB58 : JSString → Option JSString
  | [] => none
  | c :: r =>
    if isBase58 c then
      let run := (c :: r).takeWhile isBase58
      if 32 ≤ run.length then some (run.take 44) else findB58 r
    else findB58 r

/-- Try `/to\s+@?(\w+)/` anchored at this position.  When the optional `@` is
consumed but no word character follows, backtracking over `@?` cannot succeed
either, because `@` itself is not a word character. -/
def matchToAt (l : JSString) : Option JSString :=
  if leadsL (strToL "to") l then
    let after := l.drop 2
    if (after.takeWhile isWS).isEmpty then none
    else
      let r := after.dropWhile isWS
      match r with
      | 64 :: rr =>
        let w := rr.takeWhile isWordChar
        if w.isEmpty then none else some w
      | _ =>
        let w := r.takeWhile isWordChar
        if w.isEmpty then none else some w
  else none

def findToMatch : JSString → Option JSString
  | [] => none
  | c :: r =>
    match matchToAt (c :: r) with
    | some g => some g
    | none => findToMatch r

/-- The generic amount extraction of `parseIntent` (runs for every action). -/
def extractAmount (lower : JSString) : Params :=
  match findAmount lower with
  | none => {}
  | some (num, g2) =>
    let base : Params := { amount := some (ratOfNum num) }
    match g2 with
    | none => base
    | some t =>
      match normalizeTokenStr t with
      | some tk => { base with inputToken := some tk }
      | none => base

/-- The swap refinement block of `parseIntent`.  The `buy`/`sell` patterns
assign `normalizeToken`'s result directly, so they can overwrite a field with
null. -/
def swapRefine (lower : JSString) (p : Params) (conf : ℚ) : Params × ℚ :=
  let s1 :=
    match findSwapMatch lower with
    | none => (p, conf)
    | some g =>
      ((match normalizeTokenStr g with
        | some t => { p with outputToken := some t }
        | none => p), conf + 1/10)
  let s2 :=
    match findBuyMatch lower with
    | none => s1
    | some (g1, num, g3) =>
      let pa := { s1.1 with outputToken := normalizeTokenStr g1,
                            amount := some (ratOfNum num) }
      ((match g3 with
        | none => pa
        | some t => { pa with inputToken := normalizeTokenStr t }), 9/10)
  match findSellMatch lower with
  | none => s2
  | some (num, g2, g3) =>
    ({ s2.1 with amount := some (ratOfNum num),
                 inputToken := normalizeTokenStr g2,
                 outputToken := normalizeTokenStr g3 }, 9/10)

/-- The transfer refinement block of `parseIntent`. -/
def transferRefine (lower : JSString) (p : Params) (conf : ℚ) : Params × ℚ :=
  match findB58 lower with
  | some addr => ({ p with recipient := some addr }, conf + 1/10)
  | none =>
    match findToMatch lower with
    | some w => ({ p with recipientName := some w }, conf)
    | none => (p, conf)

/-- The price refinement block of `parseIntent`: first word that normalizes. -/
def priceRefine (words : List JSString) (p : Params) : Params :=
  match words.findSome? normalizeTokenStr with
  | some t => { p with token := some t }
  | none => p

/-- JavaScript falsiness of an optional number (`undefined`, `null` or `0`). -/
def jsFalsyQ (o : Option ℚ) : Bool :=
  match o with
  | none => true
  | some q => q == 0

/-- JavaScript falsiness of an optional string (`undefined`, `null` or `""`). -/
def jsFalsyS (o : Option JSString) : Bool :=
  match o with
  | none => true
  | some s => s.isEmpty

/-- The clarification policy of `parseIntent`. -/
def clarify (action : Action) (p : Params) : Option JSString :=
  match action with
  | .swap =>
    if jsFalsyS p.inputToken then some (strToL "Which token do you want to swap FROM?")
    else if jsFalsyS p.outputToken then some (strToL "Which token do you want to swap TO?")
    else if jsFalsyQ p.amount then some (strToL "How much do you want to swap?")
    else none
  | .transfer =>
    if jsFalsyS p.recipient && jsFalsyS p.recipientName then
      some (strToL "Who do you want to send to?")
    else if jsFalsyQ p.amount then some (strToL "How much do you want to send?")
    else none
  | _ => none

def parseIntent (text : JSString) : ParsedIntent :=
  let lower := trimL (toLowerL text)
  let words := splitWS lower
  let ac := detectAction lower
  let p1 := extractAmount lower
  let sr := if ac.1 = Action.swap then swapRefine lower p1 ac.2 else (p1, ac.2)
  let tr := if ac.1 = Action.transfer then transferRefine lower sr.1 sr.2 else sr
  let p4 := if ac.1 = Action.price then priceRefine words tr.1 else tr.1
  { action := ac.1, confidence := min tr.2 1, params := p4,
    originalText := text, clarificationNeeded := clarify ac.1 p4 }

/-- Function `isIntentComplete`. -/
def isIntentComplete (i : ParsedIntent) : Bool :=
  i.clarificationNeeded.isNone && decide ((7/10 : ℚ) ≤ i.confidence)

/-- The action-specific execution-ready shapes returned by `intentToParams`. -/
inductive ExecParams
  | swapP (inputMint outputMint : Option JSString) (amount : Option ℚ)
      (slippageBps : ℚ)
  | transferP (recipient : Option JSString) (amount : Option ℚ) (token : JSString)
  | priceP (token : Option JSString)
  | rawP (params : Params)
deriving DecidableEq

/-- Fallback `intent.params.inputToken || 'SOL'`. -/
def jsOrS (o : Option JSString) (d : JSString) : JSString :=
  match o with
  | some s => if s.isEmpty then d else s
  | none => d

/-- Function `intentToParams`. -/
def intentToParams (i : ParsedIntent) : Option ExecParams :=
  if isIntentComplete i then
    match i.action with
    | .swap => some (.swapP i.params.inputToken i.params.outputToken i.params.amount 50)
    | .transfer =>
      some (.transferP i.params.recipient i.params.amount
        (jsOrS i.params.inputToken (strToL "SOL")))
    | .price => some (.priceP i.params.token)
    | _ => some (.rawP i.params)
  else none

/-- Concrete transfer request carrying a 32-character base58 run. -/
def exampleTransferAddrText : JSString :=
  strToL "send 5 sol to aaaaaaaaaaaaaaaaaaaaaaaaaaaaaaaa"

/-- Concrete transfer request with a named recipient only. -/
def exampleTransferNameText : JSString := strToL "send 5 sol to alice"

/-! ## Helper lemmas -/

theorem any_orB (l : List α) (f g : α → Bool) :
    (l.any fun a => f a || g a) = (l.any f || l.any g) := by
  induction l with
  | nil => rfl
  | cons a t ih =>
    simp only [List.any_cons, ih]
    cases f a <;> cases g a <;> simp

theorem mkSwapReport_checks (l : List SafetyCheck) : (mkSwapReport l).checks = l := by
  simp only [mkSwapReport]
  split_ifs <;> rfl

theorem mkSwapReport_inv (l : List SafetyCheck) : safeInvariant (mkSwapReport l) := by
  unfold safeInvariant
  rw [mkSwapReport_checks]
  unfold levelCritical
  rw [any_orB]
  simp only [mkSwapReport]
  cases hB : l.any (fun c => c.level == Level.blocked) <;>
    cases hD : l.any (fun c => c.level == Level.danger) <;>
      cases hW : l.any (fun c => c.level == Level.warning) <;>
        simp [hB, hD, hW]

theorem balancePctCheck_not_blocked (p : SwapSafetyParams) :
    ((balancePctCheck p).level == Level.blocked) = false := by
  simp only [balancePctCheck]
  split_ifs <;> rfl

theorem slippageCheck_not_blocked (p : SwapSafetyParams) :
    ((slippageCheck p).level == Level.blocked) = false := by
  simp only [slippageCheck]
  split_ifs <;> rfl

/-! ## Claim theorems -/

/-- C1: for every report produced by `checkSwapSafety`, by `checkWalletHealth`
(its remote-failure branch included) or by `preflightCheck`, the `overallSafe`
field is false iff some check of the report has level danger or blocked. -/
theorem C1_overallSafe_iff_critical :
    (∀ p, safeInvariant (checkSwapSafety p)) ∧
    (∀ remote, safeInvariant (checkWalletHealth remote)) ∧
    (∀ remote operation params, safeInvariant (preflightCheck remote operation params)) := by
  refine ⟨fun p => mkSwapReport_inv _, fun remote => ?_, fun remote operation params => ?_⟩
  · cases remote with
    | ok lamports =>
      unfold safeInvariant levelCritical
      simp only [checkWalletHealth, List.any_cons, List.any_nil, Bool.or_false]
      rw [Bool.or_comm]
    | error msg =>
      unfold safeInvariant levelCritical
      simp only [checkWalletHealth, List.any_cons, List.any_nil]
      rfl
  · unfold safeInvariant levelCritical
    simp only [preflightCheck]
    rw [any_orB]
    simp [Bool.and_comm]

/-- C2 amended: whenever any of the awaited RPC calls (all inside the try)
throws, the call resolves with exactly the claimed failure record, and once
the Connection construction has succeeded the call always resolves — no
exception from the awaited calls escapes.  The only path that propagates an
exception to the caller is the synchronous Connection construction before the
try, which the original blanket "never propagates" clause overlooked. -/
theorem C2_sim_catches_rpc_exception :
    (∀ msg, simulateTransactionCall (Except.ok ()) (Except.error msg) =
      Except.ok { success := false, logs := [], unitsConsumed := 0, fee := 0, balanceChanges := [], error := some msg, warnings := [strToL "Simulation failed - transaction may be invalid"] }) ∧
    (∀ collab, (simulateTransactionCall (Except.ok ()) collab).isOk = true) ∧
    (∀ e collab, simulateTransactionCall (Except.error e) collab = Except.error e) :=
  ⟨fun msg => rfl, fun collab => rfl, fun e collab => rfl⟩

/-- C2 counterexample: with an RPC URL the web3.js Connection constructor
rejects, the throw happens synchronously before the try, so the call
propagates the exception to the caller instead of returning any
SimulationResult — refuting "simulateTransaction never propagates an
exception to its caller" as a statement about every RPC URL. -/
theorem C2_connection_ctor_escapes :
    simulateTransactionCall
      (Except.error (strToL "Endpoint URL must start with http: or https:"))
      (Except.ok { err := none }) =
      Except.error (strToL "Endpoint URL must start with http: or https:") ∧
    (simulateTransactionCall
      (Except.error (strToL "Endpoint URL must start with http: or https:"))
      (Except.ok { err := none })).isOk = false :=
  ⟨rfl, rfl⟩

/-- C4: on the swap of 95 out of 100 SOL with 500 bps slippage, the report is
not overall safe and its recommendation contains "NOT RECOMMENDED". -/
theorem C4_ninety_five_percent_swap :
    (checkSwapSafety exampleSwapParams).overallSafe = false ∧
    hasSub (strToL "NOT RECOMMENDED")
      (checkSwapSafety exampleSwapParams).recommended = true := by decide

/-- C6: the report of `checkSwapSafety` contains a blocked check — always the
fee-reserve check — iff the input token is SOL and the remaining balance is
below 0.001; the report has exactly three checks in that case and exactly two
otherwise. -/
theorem C6_fee_reserve_emission (p : SwapSafetyParams) :
    ((checkSwapSafety p).checks.filter fun c => c.level == Level.blocked) =
      (if p.inputToken = strToL "SOL" ∧ p.walletBalance - p.inputAmount < 1/1000
       then [feeReserveCheck] else []) ∧
    (checkSwapSafety p).checks.length =
      (if p.inputToken = strToL "SOL" ∧ p.walletBalance - p.inputAmount < 1/1000
       then 3 else 2) := by
  unfold checkSwapSafety
  rw [mkSwapReport_checks]
  unfold feeReserveChecks
  split_ifs with h
  · simp only [List.filter_append, List.length_append]
    constructor
    · simp [List.filter, balancePctCheck_not_blocked, slippageCheck_not_blocked]
      rfl
    · rfl
  · simp [List.filter, balancePctCheck_not_blocked, slippageCheck_not_blocked]

theorem mem_logWarnings (w : JSString) (logs : List JSString) :
    w ∈ logWarnings logs ↔
      (w = transferMsg ∧ logs.any (hasSub (strToL "Transfer")) = true) ∨
      (w = insufficientMsg ∧ logs.any (hasSub (strToL "insufficient")) = true) := by
  induction logs with
  | nil => simp [logWarnings]
  | cons l rest ih =>
    simp only [logWarnings, List.mem_append, List.any_cons, Bool.or_eq_true, ih]
    split_ifs <;>
      simp_all only [List.mem_singleton, List.not_mem_nil, true_or,
        false_or, or_false, and_true, and_false, eq_self_iff_true, iff_true,
        iff_false, true_and, false_and, not_false_iff] <;> tauto

/-- C5: on the success path of `simulateTransaction` (collaborator resolves
with a raw value), the claimed field mapping holds except for the error field:
`error` is set (to the serialized err) iff `err` is truthy, not merely
non-null; this theorem states the amended mapping, including the fixed fee
constant, the pass-through of logs and compute units and the three warning
heuristics. -/
theorem C5_success_path_mapping (raw : RawSimValue) :
    (simulateTransaction (.ok raw)).success = raw.err.isNone ∧
    (simulateTransaction (.ok raw)).error =
      raw.err.bind (fun e => if errTruthy e then some (jsonStringifyErr e) else none) ∧
    ((simulateTransaction (.ok raw)).error.isSome ↔
      ∃ e, raw.err = some e ∧ errTruthy e = true) ∧
    (simulateTransaction (.ok raw)).fee = 5/1000000 ∧
    (highComputeMsg ∈ (simulateTransaction (.ok raw)).warnings ↔
      200000 < raw.unitsConsumed.getD 0) ∧
    (transferMsg ∈ (simulateTransaction (.ok raw)).warnings ↔
      ∃ log ∈ raw.logs.getD [], hasSub (strToL "Transfer") log = true) ∧
    (insufficientMsg ∈ (simulateTransaction (.ok raw)).warnings ↔
      ∃ log ∈ raw.logs.getD [], hasSub (strToL "insufficient") log = true) ∧
    (simulateTransaction (.ok raw)).logs = raw.logs.getD [] ∧
    (simulateTransaction (.ok raw)).unitsConsumed = raw.unitsConsumed.getD 0 := by
  have hd1 : highComputeMsg ≠ transferMsg := by decide
  have hd2 : highComputeMsg ≠ insufficientMsg := by decide
  have hd3 : transferMsg ≠ insufficientMsg := by decide
  have hd4 : transferMsg ≠ highComputeMsg := by decide
  have hd5 : insufficientMsg ≠ highComputeMsg := by decide
  have hd6 : insufficientMsg ≠ transferMsg := by decide
  refine ⟨rfl, ?_, ?_, rfl, ?_, ?_, ?_, rfl, rfl⟩
  · simp only [simulateTransaction]
    cases he : raw.err with
    | none => simp [he]
    | some e => simp [he]
  · simp only [simulateTransaction]
    cases he : raw.err with
    | none => simp [he]
    | some e =>
      cases ht : errTruthy e <;> simp_all
  · simp only [simulateTransaction, List.mem_append, mem_logWarnings]
    split_ifs with h <;> simp_all [List.any_eq_true]
  · simp only [simulateTransaction, List.mem_append, mem_logWarnings]
    split_ifs with h <;> simp_all [List.any_eq_true]
  · simp only [simulateTransaction, List.mem_append, mem_logWarnings]
    split_ifs with h <;> simp_all [List.any_eq_true]

/-- C5 counterexample: a raw result whose `err` is the empty-string
transaction error is non-null, yet the mapped result has no `error` field
(the source tests truthiness, not null-ness), refuting the claimed
"error set iff err non-null". -/
theorem C5_empty_string_err_counterexample :
    emptyStrErrRaw.err ≠ none ∧
    (simulateTransaction (.ok emptyStrErrRaw)).success = false ∧
    (simulateTransaction (.ok emptyStrErrRaw)).error = none := by decide

theorem extractAmount_rest (l : JSString) :
    (extractAmount l).outputToken = none ∧ (extractAmount l).recipient = none ∧
    (extractAmount l).recipientName = none ∧ (extractAmount l).token = none := by
  unfold extractAmount
  cases hfa : findAmount l with
  | none => exact ⟨rfl, rfl, rfl, rfl⟩
  | some pr =>
    obtain ⟨num, g2⟩ := pr
    cases g2 with
    | none => exact ⟨rfl, rfl, rfl, rfl⟩
    | some tok =>
      dsimp only
      cases hnt : normalizeTokenStr tok with
      | none => exact ⟨rfl, rfl, rfl, rfl⟩
      | some tk => exact ⟨rfl, rfl, rfl, rfl⟩

theorem detectAction_transfer_conf (l : JSString)
    (h : (detectAction l).1 = Action.transfer) : (detectAction l).2 = 8/10 := by
  unfold detectAction at h ⊢
  split_ifs at h ⊢ <;> simp_all

theorem parseIntent_clarification (t : JSString) :
    (parseIntent t).clarificationNeeded =
      clarify (parseIntent t).action (parseIntent t).params := rfl

theorem parseIntent_unknown_shape (t : JSString)
    (ha : (detectAction (trimL (toLowerL t))).1 = Action.unknown) :
    (parseIntent t).params = extractAmount (trimL (toLowerL t)) ∧
    (parseIntent t).clarificationNeeded = none := by
  constructor <;> simp [parseIntent, ha, clarify]

theorem parseIntent_transfer_shape (t : JSString)
    (ha : (detectAction (trimL (toLowerL t))).1 = Action.transfer) :
    (parseIntent t).params =
      (transferRefine (trimL (toLowerL t)) (extractAmount (trimL (toLowerL t)))
        (detectAction (trimL (toLowerL t))).2).1 ∧
    (parseIntent t).confidence =
      min (transferRefine (trimL (toLowerL t)) (extractAmount (trimL (toLowerL t)))
        (detectAction (trimL (toLowerL t))).2).2 1 := by
  constructor <;> simp [parseIntent, ha]

/-- C3 counterexample: the input "5 sol" classifies as `unknown`, yet its
params carry an amount and an input token, refuting "unknown action always
has empty params". -/
theorem C3_unknown_nonempty_params_counterexample :
    (parseIntent (strToL "5 sol")).action = Action.unknown ∧
    (parseIntent (strToL "5 sol")).params ≠ ({} : Params) ∧
    (parseIntent (strToL "5 sol")).params.amount = some 5 ∧
    (parseIntent (strToL "5 sol")).params.inputToken = some (strToL "SOL") := by
  decide

/-- C3 amended: an `unknown` intent never needs clarification, and its params
never contain an output token, recipient, recipient name or token — but they
may contain an amount and input token from the generic number extraction,
which runs for every action. -/
theorem C3_unknown_no_clarification_limited_params (t : JSString)
    (h : (parseIntent t).action = Action.unknown) :
    (parseIntent t).clarificationNeeded = none ∧
    (parseIntent t).params.outputToken = none ∧
    (parseIntent t).params.recipient = none ∧
    (parseIntent t).params.recipientName = none ∧
    (parseIntent t).params.token = none := by
  have ha : (detectAction (trimL (toLowerL t))).1 = Action.unknown := h
  obtain ⟨hp, hcl⟩ := parseIntent_unknown_shape t ha
  obtain ⟨h1, h2, h3, h4⟩ := extractAmount_rest (trimL (toLowerL t))
  rw [hp]
  exact ⟨hcl, h1, h2, h3, h4⟩

theorem C3_witness :
    (parseIntent (strToL "zzz")).clarificationNeeded = none ∧
    (parseIntent (strToL "zzz")).params.outputToken = none ∧
    (parseIntent (strToL "zzz")).params.recipient = none ∧
    (parseIntent (strToL "zzz")).params.recipientName = none ∧
    (parseIntent (strToL "zzz")).params.token = none :=
  C3_unknown_no_clarification_limited_params (strToL "zzz") (by decide)

/-- C7: parsing "swap 1.5 SOL for USDC" yields a swap of amount 1.5 from SOL
to USDC with confidence at least 0.9 and no clarification. -/
theorem C7_swap_sol_for_usdc :
    (parseIntent (strToL "swap 1.5 SOL for USDC")).action = Action.swap ∧
    (parseIntent (strToL "swap 1.5 SOL for USDC")).params.amount = some (3/2) ∧
    (parseIntent (strToL "swap 1.5 SOL for USDC")).params.inputToken =
      some (strToL "SOL") ∧
    (parseIntent (strToL "swap 1.5 SOL for USDC")).params.outputToken =
      some (strToL "USDC") ∧
    (9/10 : ℚ) ≤ (parseIntent (strToL "swap 1.5 SOL for USDC")).confidence ∧
    (parseIntent (strToL "swap 1.5 SOL for USDC")).clarificationNeeded = none := by
  decide

/-- C8: for a transfer intent, a base58-looking run of 32-44 characters in the
lowered text becomes the recipient and raises confidence by 0.1 (leaving the
recipient name unset); when no such run exists, a `to <name>` match becomes
the recipient name. -/
theorem C8_transfer_recipient_extraction (t : JSString)
    (h : (parseIntent t).action = Action.transfer) :
    (∀ a, findB58 (trimL (toLowerL t)) = some a →
      (parseIntent t).params.recipient = some a ∧
      (parseIntent t).params.recipientName = none ∧
      (parseIntent t).confidence = 8/10 + 1/10) ∧
    (findB58 (trimL (toLowerL t)) = none →
      ∀ w, findToMatch (trimL (toLowerL t)) = some w →
        (parseIntent t).params.recipient = none ∧
        (parseIntent t).params.recipientName = some w) := by
  have ha : (detectAction (trimL (toLowerL t))).1 = Action.transfer := h
  have hc : (detectAction (trimL (toLowerL t))).2 = 8/10 :=
    detectAction_transfer_conf _ ha
  obtain ⟨hp, hconf⟩ := parseIntent_transfer_shape t ha
  obtain ⟨_, hrec, hname, _⟩ := extractAmount_rest (trimL (toLowerL t))
  constructor
  · intro a haddr
    rw [hp, hconf]
    unfold transferRefine
    rw [haddr, hc]
    refine ⟨rfl, hname, ?_⟩
    norm_num
  · intro haddr w hto
    rw [hp]
    unfold transferRefine
    rw [haddr, hto]
    exact ⟨hrec, rfl⟩

theorem C8_witness :
    (parseIntent exampleTransferAddrText).params.recipient =
      some (List.replicate 32 97) ∧
    (parseIntent exampleTransferAddrText).params.recipientName = none ∧
    (parseIntent exampleTransferAddrText).confidence = 8/10 + 1/10 :=
  (C8_transfer_recipient_extraction exampleTransferAddrText (by decide)).1
    (List.replicate 32 97) (by decide)

theorem aliasGet_mem_snd {l : List (JSString × JSString)} {k v : JSString}
    (h : aliasGet l k = some (TokenVal.sym v)) : v ∈ l.map Prod.snd := by
  induction l with
  | nil =>
    unfold aliasGet at h
    split_ifs at h <;> simp_all
  | cons kv rest ih =>
    obtain ⟨k0, v0⟩ := kv
    unfold aliasGet at h
    split_ifs at h with hk
    · simp only [Option.some.injEq, TokenVal.sym.injEq] at h
      subst h
      simp
    · simpa using Or.inr (ih h)

theorem alias_values_fixed :
    ∀ v ∈ TOKEN_ALIASES.map Prod.snd,
      normalizeToken v = some (TokenVal.sym v) := by decide

theorem lowerN_upperN_id {n : Nat}
    (h : ((97 ≤ n && n ≤ 122) || (48 ≤ n && n ≤ 57)) = true) :
    asciiLowerN (asciiUpperN n) = n := by
  simp only [Bool.or_eq_true, Bool.and_eq_true, decide_eq_true_eq] at h
  unfold asciiUpperN asciiLowerN
  split_ifs <;> omega

theorem cleanTok_upper_map (l : JSString)
    (hl : ∀ n ∈ l, ((97 ≤ n && n ≤ 122) || (48 ≤ n && n ≤ 57)) = true) :
    cleanTok (l.map asciiUpperN) = l := by
  induction l with
  | nil => rfl
  | cons n rest ih =>
    have hn := hl n (List.mem_cons_self n rest)
    have ih2 := ih fun m hm => hl m (List.mem_cons_of_mem n hm)
    unfold cleanTok at ih2 ⊢
    simp only [List.map_cons, List.filter_cons, lowerN_upperN_id hn, hn, ih2,
      if_true, ite_true]

theorem normalizeToken_sym_idempotent (s v : JSString)
    (h : normalizeToken s = some (TokenVal.sym v)) :
    normalizeToken v = some (TokenVal.sym v) := by
  cases ha : aliasGet TOKEN_ALIASES (cleanTok s) with
  | none =>
    simp only [normalizeToken, ha] at h
    split_ifs at h with hlen
    simp only [Option.some.injEq, TokenVal.sym.injEq] at h
    subst h
    have hmem : ∀ n ∈ cleanTok s,
        ((97 ≤ n && n ≤ 122) || (48 ≤ n && n ≤ 57)) = true := by
      intro n hn
      simp only [cleanTok] at hn
      simpa using List.of_mem_filter hn
    simp only [normalizeToken, cleanTok_upper_map _ hmem, ha]
    rw [if_pos hlen]
  | some av =>
    cases av with
    | sym v0 =>
      simp only [normalizeToken, ha, Option.some.injEq, TokenVal.sym.injEq] at h
      subst h
      exact alias_values_fixed _ (aliasGet_mem_snd ha)
    | objCtor =>
      simp [normalizeToken, ha] at h

/-- C9: the claimed idempotence fails on the code, which is the slip:
TOKEN_ALIASES is a plain object literal, so the alias read at the
all-lowercase inherited key "constructor" walks the prototype chain and leaks
the truthy `Object.prototype.constructor` function, contradicting the
source's own declared types (`Record<string, string>`, return `string|null`).
Hence `normalizeToken("constructor")` is non-null but not a string, and the
second application throws a TypeError instead of reproducing it; every
string-valued result does re-normalize to itself
(`normalizeToken_sym_idempotent`). -/
theorem C9_constructor_prototype_leak :
    normalizeToken (strToL "constructor") = some TokenVal.objCtor ∧
    normalizeTokenAgain TokenVal.objCtor =
      Except.error (strToL "input.toLowerCase is not a function") :=
  ⟨by decide, rfl⟩

/-- C10: a complete transfer intent whose params hold only a recipient name
(no address) maps through `intentToParams` to a non-null transfer shape whose
recipient is absent — the name is dropped — while the amount is populated and
the token falls back to "SOL" when no input token was extracted. -/
theorem C10_transfer_drops_recipientName (t : JSString)
    (h : (parseIntent t).action = Action.transfer)
    (hcomp : isIntentComplete (parseIntent t) = true)
    (hr : (parseIntent t).params.recipient = none)
    (hn : (parseIntent t).params.recipientName.isSome = true) :
    intentToParams (parseIntent t) =
      some (ExecParams.transferP none (parseIntent t).params.amount
        (jsOrS (parseIntent t).params.inputToken (strToL "SOL"))) ∧
    (∃ a, (parseIntent t).params.amount = some a) ∧
    ((parseIntent t).params.inputToken = none →
      intentToParams (parseIntent t) =
        some (ExecParams.transferP none (parseIntent t).params.amount
          (strToL "SOL"))) := by
  have hmain : intentToParams (parseIntent t) =
      some (ExecParams.transferP none (parseIntent t).params.amount
        (jsOrS (parseIntent t).params.inputToken (strToL "SOL"))) := by
    unfold intentToParams
    rw [hcomp, if_pos rfl, h, ← hr]
  have hclar : clarify (parseIntent t).action (parseIntent t).params = none := by
    rw [← parseIntent_clarification]
    unfold isIntentComplete at hcomp
    rw [Bool.and_eq_true] at hcomp
    exact Option.isNone_iff_eq_none.mp hcomp.1
  rw [h] at hclar
  simp only [clarify] at hclar
  split_ifs at hclar with h1 h2
  refine ⟨hmain, ?_, fun hit => by rw [hmain, hit]; rfl⟩
  cases hamt : (parseIntent t).params.amount with
  | none =>
    rw [hamt] at h2
    simp [jsFalsyQ] at h2
  | some a => exact ⟨a, rfl⟩

theorem C10_witness :
    intentToParams (parseIntent exampleTransferNameText) =
      some (ExecParams.transferP none
        (parseIntent exampleTransferNameText).params.amount
        (jsOrS (parseIntent exampleTransferNameText).params.inputToken
          (strToL "SOL"))) :=
  (C10_transfer_drops_recipientName exampleTransferNameText (by decide) (by decide)
    (by decide) (by decide)).1

end SolanaSDK
